import Mathlib

/-
  Verification development for the Goodix GT9xx touchscreen driver
  (drivers/input/touchscreen/goodix.c).

  The driver's pure computations are embedded directly; the effectful
  parts (I2C transfers, GPIO line manipulation, IRQ management, delays)
  are modelled by explicit environments that supply the outcome of each
  external call, and by traces of the actions the driver performs, so
  that ordering and error-propagation properties can be stated.
  Machine bytes are Nat values < 256; errno-style results are Int.
-/

namespace Goodix

/-- Errno values used by the driver (returned negated, as in the
kernel); the bus error code EIO = 5 is used as a bare literal below. -/
def EAGAIN : Int := 11

def EINVAL : Int := 22

def EPROTO : Int := 71

/-- Constants from the source header block. -/
def GOODIX_MAX_HEIGHT : Nat := 4096

def GOODIX_MAX_WIDTH : Nat := 4096

def GOODIX_INT_TRIGGER : Nat := 1

def GOODIX_CONTACT_SIZE : Nat := 8

def GOODIX_MAX_CONTACTS : Nat := 10

def GOODIX_CONFIG_MAX_LENGTH : Nat := 240

def GOODIX_CONFIG_911_LENGTH : Nat := 186

def GOODIX_CONFIG_967_LENGTH : Nat := 228

def GOODIX_REG_COMMAND : Nat := 0x8040

def GOODIX_CMD_SCREEN_OFF : Nat := 0x05

def GOODIX_CMD_ESD_ENABLED : Nat := 0xAA

def GOODIX_REG_ESD_CHECK : Nat := 0x8041

def GOODIX_READ_COOR_ADDR : Nat := 0x814E

def GOODIX_REG_CONFIG_DATA : Nat := 0x8047

def RESOLUTION_LOC : Nat := 1

def MAX_CONTACTS_LOC : Nat := 5

def TRIGGER_LOC : Nat := 6

/-- goodix_get_cfg_len: config blob length derived from the controller id. -/
def goodix_get_cfg_len (id : Nat) : Nat :=
  if id = 911 ∨ id = 9271 ∨ id = 9110 ∨ id = 927 ∨ id = 928 then
    GOODIX_CONFIG_911_LENGTH
  else if id = 912 ∨ id = 967 then
    GOODIX_CONFIG_967_LENGTH
  else
    GOODIX_CONFIG_MAX_LENGTH

/-- Byte access at a C `int` index: the index the C code computes may be
negative (from `cfg->size - 2` on a short blob), in which case — and
when past the end — the access is out of bounds and has no value. -/
def byteAt (l : List Nat) (i : Int) : Option Nat :=
  if i < 0 then none else l[i.toNat]?

/-- Outcome of goodix_check_cfg. The C function returns -EINVAL on the
three rejection branches; the constructors record which branch fired.
oobAccess marks an array access the C code performs out of bounds. -/
inductive CfgCheck where
  | ok
  | invalidSize
  | badChecksum
  | notFresh
  | oobAccess
  deriving DecidableEq, Repr

/-- goodix_check_cfg: size bound, two's-complement checksum over all but
the last two bytes (accumulated in a u8), and the Config_Fresh byte. -/
def goodix_check_cfg (cfg : List Nat) : CfgCheck :=
  if cfg.length > GOODIX_CONFIG_MAX_LENGTH then CfgCheck.invalidSize
  else
    let raw_cfg_len : Int := (cfg.length : Int) - 2
    let check_sum : Nat := (256 - (cfg.take raw_cfg_len.toNat).sum % 256) % 256
    match byteAt cfg raw_cfg_len with
    | none => CfgCheck.oobAccess
    | some b =>
      if check_sum ≠ b then CfgCheck.badChecksum
      else
        match byteAt cfg (raw_cfg_len + 1) with
        | none => CfgCheck.oobAccess
        | some f => if f ≠ 1 then CfgCheck.notFresh else CfgCheck.ok

/-- goodix_send_cfg: validate, then write the blob to 0x8047. The second
component is the list of bus writes performed (register, payload); the
write environment gives the outcome of the bus write when it happens. -/
def goodix_send_cfg (cfg : List Nat) (writeRes : Option Int) :
    Int × List (Nat × List Nat) :=
  if goodix_check_cfg cfg ≠ CfgCheck.ok then (-EINVAL, [])
  else
    match writeRes with
    | some e => (e, [(GOODIX_REG_CONFIG_DATA, cfg)])
    | none => (0, [(GOODIX_REG_CONFIG_DATA, cfg)])

/-- Little-endian 16-bit value from two bytes (get_unaligned_le16). -/
def le16 (lo hi : Nat) : Nat := lo + 256 * hi

/-- The kernel swap macro applied to a pair under a condition, as used
for swapped_x_y in goodix_read_config and goodix_ts_report_touch. -/
def swapIf (b : Bool) (p : Int × Int) : Int × Int := if b then (p.2, p.1) else p

/-- The fields of struct goodix_ts_data that the touch decoder uses. -/
structure GoodixTs where
  abs_x_max : Int
  abs_y_max : Int
  swapped_x_y : Bool
  inverted_x : Bool
  inverted_y : Bool
  max_touch_num : Nat
  deriving DecidableEq, Repr

/-- One slot report pushed into the input sink for a contact. -/
structure TouchEmit where
  slot : Nat
  pos_x : Int
  pos_y : Int
  touch_major : Nat
  width_major : Nat
  deriving DecidableEq, Repr

/-- goodix_ts_report_touch: decode one 8-byte contact block and apply
the inversion/swap transform before emitting to the sink. -/
def goodix_ts_report_touch (ts : GoodixTs) (coor_data : List Nat) : TouchEmit :=
  let id := (coor_data.getD 0 0) &&& 0x0F
  let input_x : Int := le16 (coor_data.getD 1 0) (coor_data.getD 2 0)
  let input_y : Int := le16 (coor_data.getD 3 0) (coor_data.getD 4 0)
  let input_w : Nat := le16 (coor_data.getD 5 0) (coor_data.getD 6 0)
  let ix := if ts.inverted_x then ts.abs_x_max - input_x else input_x
  let iy := if ts.inverted_y then ts.abs_y_max - input_y else input_y
  let p := swapIf ts.swapped_x_y (ix, iy)
  ⟨id, p.1, p.2, input_w, input_w⟩

/-- Outcomes of the two bus reads goodix_ts_read_input_report may do:
the 9-byte header read and the follow-up read for extra contacts. -/
structure IrqEnv where
  read1 : Except Int (List Nat)
  read2 : Except Int (List Nat)

/-- goodix_ts_read_input_report: read the header+first contact, check
the report-ready bit and the contact count, read the remaining
contacts if any; returns the count and the raw frame data. -/
def goodix_ts_read_input_report (maxTouch : Nat) (env : IrqEnv) :
    Except Int (Nat × List Nat) :=
  match env.read1 with
  | Except.error e => Except.error e
  | Except.ok data =>
    if (data.getD 0 0) &&& 0x80 = 0 then Except.error (-EAGAIN)
    else
      let touch_num := (data.getD 0 0) &&& 0x0f
      if touch_num > maxTouch then Except.error (-EPROTO)
      else if touch_num > 1 then
        match env.read2 with
        | Except.error e => Except.error e
        | Except.ok more => Except.ok (touch_num, data ++ more)
      else Except.ok (touch_num, data)

/-- Events emitted into the input sink. -/
inductive SinkEv where
  | touch (e : TouchEmit)
  | mtSyncFrame
  | inputSync
  deriving DecidableEq, Repr

/-- The i-th 8-byte contact block of a frame buffer (offset 1 + 8*i). -/
def contactAt (data : List Nat) (i : Nat) : List Nat :=
  (data.drop (1 + GOODIX_CONTACT_SIZE * i)).take GOODIX_CONTACT_SIZE

/-- goodix_process_events: drain one report and push it to the sink;
on any read_input_report error nothing is emitted. -/
def goodix_process_events (ts : GoodixTs) (env : IrqEnv) : List SinkEv :=
  match goodix_ts_read_input_report ts.max_touch_num env with
  | Except.error _ => []
  | Except.ok (n, data) =>
    ((List.range n).map
        (fun i => SinkEv.touch (goodix_ts_report_touch ts (contactAt data i))))
      ++ [SinkEv.mtSyncFrame, SinkEv.inputSync]

/-- Return values of a threaded IRQ handler. -/
inductive IrqReturn where
  | noneRet
  | handled
  | wakeThread
  deriving DecidableEq, Repr

/-- goodix_ts_irq_handler: process events, then acknowledge the
interrupt by writing 0 to 0x814E (a failure of that write is only
logged). Returns the sink events, the bus writes and IRQ_HANDLED. -/
def goodix_ts_irq_handler (ts : GoodixTs) (env : IrqEnv) (ackRes : Option Int) :
    List SinkEv × List (Nat × List Nat) × IrqReturn :=
  let sink := goodix_process_events ts env
  let acks := [(GOODIX_READ_COOR_ADDR, [(0 : Nat)])]
  match ackRes with
  | some _ => (sink, acks, IrqReturn.handled)
  | none => (sink, acks, IrqReturn.handled)

/-- The geometry goodix_read_config stores into struct goodix_ts_data. -/
structure Geom where
  abs_x_max : Int
  abs_y_max : Int
  max_touch_num : Nat
  int_trigger_type : Nat
  deriving DecidableEq, Repr

/-- The default geometry installed on read failure or invalid config. -/
def goodix_default_geom (swapped : Bool) : Geom :=
  let p := swapIf swapped ((GOODIX_MAX_WIDTH : Int), (GOODIX_MAX_HEIGHT : Int))
  ⟨p.1, p.2, GOODIX_MAX_CONTACTS, GOODIX_INT_TRIGGER⟩

/-- The register-extraction part of goodix_read_config, over the six
bytes it reads: resolution LE at bytes 1..4, contact count low nibble
at byte 5, trigger type low 2 bits at byte 6; zero resolution or zero
contacts falls back to the defaults. -/
def goodix_parse_config (swapped : Bool) (b1 b2 b3 b4 b5 b6 : Nat) : Geom :=
  let x : Int := le16 b1 b2
  let y : Int := le16 b3 b4
  let p := swapIf swapped (x, y)
  let trig := b6 &&& 0x03
  let touch := b5 &&& 0x0f
  if p.1 = 0 ∨ p.2 = 0 ∨ touch = 0 then goodix_default_geom swapped
  else ⟨p.1, p.2, touch, trig⟩

/-- goodix_read_config: read cfg_len bytes from 0x8047 (the environment
gives the read outcome), extract resolution, contact count and trigger
type, falling back to defaults on read error or zero values. -/
def goodix_read_config (swapped : Bool) (readRes : Option (List Nat)) : Geom :=
  match readRes with
  | none => goodix_default_geom swapped
  | some config =>
    goodix_parse_config swapped
      (config.getD RESOLUTION_LOC 0) (config.getD (RESOLUTION_LOC + 1) 0)
      (config.getD (RESOLUTION_LOC + 2) 0) (config.getD (RESOLUTION_LOC + 3) 0)
      (config.getD MAX_CONTACTS_LOC 0) (config.getD TRIGGER_LOC 0)

/-- Outcome of one ESD status read of 2 bytes from 0x8040. -/
inductive EsdRead where
  | fail
  | ok (b0 b1 : Nat)
  deriving DecidableEq, Repr

/-- The health test of goodix_esd_work on a read outcome: the read must
succeed with byte0 != 0xAA and byte1 == 0xAA. -/
def esdHealthy : EsdRead → Bool
  | EsdRead.fail => false
  | EsdRead.ok b0 b1 =>
    decide (b0 ≠ GOODIX_CMD_ESD_ENABLED) && decide (b1 = GOODIX_CMD_ESD_ENABLED)

/-- Actions of one ESD supervisor tick. -/
inductive EsdAct where
  | waitBarrier
  | readCmd
  | feedWatchdog
  | scheduleNext
  | recover
  deriving DecidableEq, Repr

/-- The `while (--retries)` loop of goodix_esd_work: the environment
gives the outcome of the read in attempt i. Returns the trace of the
loop and the final value of `retries`. -/
def goodix_esd_loop (env : Nat → EsdRead) : Nat → Nat → List EsdAct × Nat
  | 0, _ => ([], 0)
  | 1, _ => ([], 0)
  | retries + 2, i =>
    if esdHealthy (env i) then
      ([EsdAct.readCmd, EsdAct.feedWatchdog], retries + 1)
    else
      let p := goodix_esd_loop env (retries + 1) (i + 1)
      (EsdAct.readCmd :: p.1, p.2)

/-- goodix_esd_work: wait for the firmware barrier, run the retry loop
with `retries = 3`, then either recover (when retries hit 0) or
schedule the next tick. -/
def goodix_esd_work (env : Nat → EsdRead) : List EsdAct :=
  let p := goodix_esd_loop env 3 0
  EsdAct.waitBarrier ::
    (p.1 ++ (if p.2 = 0 then [EsdAct.recover] else [EsdAct.scheduleNext]))

/-- GPIO / timing actions of the reset handshake. -/
inductive GpioAct where
  | setReset (v : Nat)
  | setIntOutput (v : Nat)
  | setIntInput
  | msleepAct (ms : Nat)
  | usleepAct (lo hi : Nat)
  deriving DecidableEq, Repr

/-- Outcomes of the five fallible line operations of goodix_reset, in
program order: reset low, INT output, reset high, INT sync output low,
INT sync switch to input. none means success. -/
structure ResetEnv where
  rst_low : Option Int
  int_out : Option Int
  rst_high : Option Int
  sync_out : Option Int
  sync_in : Option Int
  deriving DecidableEq, Repr

/-- goodix_int_sync: drive INT low, hold 50 ms (T5), float INT. -/
def goodix_int_sync (outRes inRes : Option Int) : List GpioAct × Option Int :=
  match outRes with
  | some e => ([GpioAct.setIntOutput 0], some e)
  | none =>
    ([GpioAct.setIntOutput 0, GpioAct.msleepAct 50, GpioAct.setIntInput], inRes)

/-- goodix_reset: the timed reset / slave-address selection handshake,
ending in the INT sync. Returns the trace of attempted actions and
none on success or the error of the first failing sub-step. -/
def goodix_reset (addr : Nat) (env : ResetEnv) : List GpioAct × Option Int :=
  match env.rst_low with
  | some e => ([GpioAct.setReset 0], some e)
  | none =>
    match env.int_out with
    | some e =>
      ([GpioAct.setReset 0, GpioAct.msleepAct 20,
        GpioAct.setIntOutput (if addr = 0x14 then 1 else 0)], some e)
    | none =>
      match env.rst_high with
      | some e =>
        ([GpioAct.setReset 0, GpioAct.msleepAct 20,
          GpioAct.setIntOutput (if addr = 0x14 then 1 else 0),
          GpioAct.usleepAct 100 2000, GpioAct.setReset 1], some e)
      | none =>
        let s := goodix_int_sync env.sync_out env.sync_in
        ([GpioAct.setReset 0, GpioAct.msleepAct 20,
          GpioAct.setIntOutput (if addr = 0x14 then 1 else 0),
          GpioAct.usleepAct 100 2000, GpioAct.setReset 1,
          GpioAct.usleepAct 6000 10000] ++ s.1, s.2)

/-- The full action trace of a successful reset handshake. -/
def goodix_reset_success_trace (addr : Nat) : List GpioAct :=
  [GpioAct.setReset 0, GpioAct.msleepAct 20,
   GpioAct.setIntOutput (if addr = 0x14 then 1 else 0),
   GpioAct.usleepAct 100 2000, GpioAct.setReset 1,
   GpioAct.usleepAct 6000 10000,
   GpioAct.setIntOutput 0, GpioAct.msleepAct 50, GpioAct.setIntInput]

/-- The first failing sub-step of the handshake, if any. -/
def resetFirstErr (env : ResetEnv) : Option Int :=
  env.rst_low <|> env.int_out <|> env.rst_high <|> env.sync_out <|> env.sync_in

/-- Lifecycle state consulted by goodix_sleep. -/
structure SleepSt where
  hasGpioInt : Bool
  hasGpioRst : Bool
  suspended : Bool
  deriving DecidableEq, Repr

/-- Outcomes of the two fallible steps of goodix_sleep: driving INT low
and writing the screen-off command. -/
structure SleepEnv where
  int_out_low : Option Int
  screen_off : Option Int
  deriving DecidableEq, Repr

/-- Actions of the power/lifecycle paths. -/
inductive PmAct where
  | waitFirmware
  | disableEsd
  | freeIrq
  | requestIrq
  | setIntOutput (v : Nat)
  | setIntInput
  | writeCmd (reg v : Nat)
  | sleepMs (ms : Nat)
  deriving DecidableEq, Repr

/-- goodix_sleep: the suspend path. Returns the action trace, the
returned error code (0 on success) and the new `suspended` flag. -/
def goodix_sleep (st : SleepSt) (env : SleepEnv) : List PmAct × Int × Bool :=
  if ¬ (st.hasGpioInt && st.hasGpioRst) then ([], 0, st.suspended)
  else if st.suspended then ([PmAct.waitFirmware], 0, st.suspended)
  else
    let pre := [PmAct.waitFirmware, PmAct.disableEsd, PmAct.freeIrq,
                PmAct.setIntOutput 0]
    match env.int_out_low with
    | some e => (pre ++ [PmAct.requestIrq], e, st.suspended)
    | none =>
      let pre2 := pre ++ [PmAct.sleepMs 5,
                          PmAct.writeCmd GOODIX_REG_COMMAND GOODIX_CMD_SCREEN_OFF]
      match env.screen_off with
      | some _ =>
        (pre2 ++ [PmAct.setIntInput, PmAct.requestIrq], -EAGAIN, st.suspended)
      | none => (pre2 ++ [PmAct.sleepMs 58], 0, true)

/-- State consulted by goodix_open / goodix_close. -/
structure OpenSt where
  hasGpioInt : Bool
  hasGpioRst : Bool
  open_count : Int
  deriving DecidableEq, Repr

/-- goodix_open: absent GPIOs succeed immediately; otherwise wait for
the firmware barrier, request power-on (outcome given by powerOn) and
increment open_count only on success. Returns (result, open_count). -/
def goodix_open (st : OpenSt) (powerOn : Option Int) : Int × Int :=
  if ¬ (st.hasGpioInt && st.hasGpioRst) then (0, st.open_count)
  else
    match powerOn with
    | some e => (e, st.open_count)
    | none => (0, st.open_count + 1)

/-- goodix_close: absent GPIOs return immediately; otherwise request
power-off and decrement open_count. Returns the new open_count. -/
def goodix_close (st : OpenSt) : Int :=
  if ¬ (st.hasGpioInt && st.hasGpioRst) then st.open_count
  else st.open_count - 1

/-! Helper lemmas. -/

lemma byte_getD_lt (l : List Nat) (hb : ∀ b ∈ l, b < 256) (i : Nat) :
    l.getD i 0 < 256 := by
  rcases h : l[i]? with _ | v
  · simp [List.getD, h]
  · have hv : v ∈ l := List.getElem?_mem h
    simpa [List.getD, h] using hb v hv

lemma checksum_mod_iff (S b : Nat) (hb : b < 256) :
    (256 - S % 256) % 256 = b ↔ (S + b) % 256 = 0 := by
  omega

lemma parse_config_ranges (swapped : Bool) (b1 b2 b3 b4 b5 b6 : Nat)
    (h1 : b1 < 256) (h2 : b2 < 256) (h3 : b3 < 256) (h4 : b4 < 256) :
    (1 ≤ (goodix_parse_config swapped b1 b2 b3 b4 b5 b6).abs_x_max ∧
      (goodix_parse_config swapped b1 b2 b3 b4 b5 b6).abs_x_max ≤ 65535) ∧
    (1 ≤ (goodix_parse_config swapped b1 b2 b3 b4 b5 b6).abs_y_max ∧
      (goodix_parse_config swapped b1 b2 b3 b4 b5 b6).abs_y_max ≤ 65535) ∧
    (1 ≤ (goodix_parse_config swapped b1 b2 b3 b4 b5 b6).max_touch_num ∧
      (goodix_parse_config swapped b1 b2 b3 b4 b5 b6).max_touch_num ≤ 15) ∧
    (goodix_parse_config swapped b1 b2 b3 b4 b5 b6).int_trigger_type ≤ 3 := by
  have t5 : b5 &&& 15 ≤ 15 := Nat.and_le_right
  have t6 : b6 &&& 3 ≤ 3 := Nat.and_le_right
  cases swapped with
  | false =>
    simp only [goodix_parse_config, swapIf, Bool.false_eq_true, if_false]
    split
    · simp [goodix_default_geom, swapIf, GOODIX_MAX_WIDTH, GOODIX_MAX_HEIGHT,
        GOODIX_MAX_CONTACTS, GOODIX_INT_TRIGGER]
    · rename_i hcond
      push_neg at hcond
      obtain ⟨hx0, hy0, ht0⟩ := hcond
      dsimp only
      simp only [le16] at *
      refine ⟨⟨?_, ?_⟩, ⟨?_, ?_⟩, ⟨?_, ?_⟩, ?_⟩ <;> omega
  | true =>
    simp only [goodix_parse_config, swapIf, if_true]
    split
    · simp [goodix_default_geom, swapIf, GOODIX_MAX_WIDTH, GOODIX_MAX_HEIGHT,
        GOODIX_MAX_CONTACTS, GOODIX_INT_TRIGGER]
    · rename_i hcond
      push_neg at hcond
      obtain ⟨hx0, hy0, ht0⟩ := hcond
      dsimp only
      simp only [le16] at *
      refine ⟨⟨?_, ?_⟩, ⟨?_, ?_⟩, ⟨?_, ?_⟩, ?_⟩ <;> omega

/-! Claim theorems. -/

/-- C8: the config blob length is derived from the decimal controller id
exactly as: ids 911, 9271, 9110, 927 and 928 give 186; ids 912 and 967
give 228; every other id gives 240. -/
theorem C8_cfg_len_table (id : Nat) :
    (id = 911 ∨ id = 9271 ∨ id = 9110 ∨ id = 927 ∨ id = 928 →
      goodix_get_cfg_len id = 186) ∧
    (id = 912 ∨ id = 967 → goodix_get_cfg_len id = 228) ∧
    (¬ (id = 911 ∨ id = 9271 ∨ id = 9110 ∨ id = 927 ∨ id = 928) →
      ¬ (id = 912 ∨ id = 967) → goodix_get_cfg_len id = 240) := by
  refine ⟨?_, ?_, ?_⟩
  · intro h
    rcases h with rfl | rfl | rfl | rfl | rfl <;> decide
  · intro h
    rcases h with rfl | rfl <;> decide
  · intro h1 h2
    unfold goodix_get_cfg_len
    rw [if_neg h1, if_neg h2]
    rfl

/-- Witness for C8 at the three kinds of id. -/
theorem C8_cfg_len_table_witness :
    goodix_get_cfg_len 9271 = 186 ∧ goodix_get_cfg_len 967 = 228 ∧
    goodix_get_cfg_len 1001 = 240 :=
  ⟨(C8_cfg_len_table 9271).1 (Or.inr (Or.inl rfl)),
   (C8_cfg_len_table 967).2.1 (Or.inr rfl),
   (C8_cfg_len_table 1001).2.2 (by decide) (by decide)⟩

/-- C9: goodix_check_cfg assumes a blob of length at least 2: for blobs
of length 0 or 1 the checksum index cfg->size - 2 underflows and the
byte access is out of bounds, so in the total embedding the indexing
returns none and the oobAccess branch is reached. -/
theorem C9_short_cfg_oob (cfg : List Nat)
    (h : cfg.length = 0 ∨ cfg.length = 1) :
    goodix_check_cfg cfg = CfgCheck.oobAccess := by
  rcases h with h | h
  · rw [List.length_eq_zero] at h
    subst h
    decide
  · obtain ⟨a, ha⟩ := List.length_eq_one.mp h
    subst ha
    simp [goodix_check_cfg, byteAt, GOODIX_CONFIG_MAX_LENGTH]

/-- Witness for C9 at the empty blob. -/
theorem C9_short_cfg_oob_witness :
    ([] : List Nat).length = 0 ∧ goodix_check_cfg [] = CfgCheck.oobAccess :=
  ⟨rfl, C9_short_cfg_oob [] (Or.inl rfl)⟩

/-- C3: goodix_check_cfg accepts a blob of length L (at least 2) iff
L <= 240, the sum of the first L-1 bytes vanishes mod 256 (equivalently
the two's-complement checksum over the first L-2 bytes equals byte L-2),
and byte L-1 equals 1; on any validation failure goodix_send_cfg returns
-EINVAL and performs no bus write. -/
theorem C3_cfg_validation (cfg : List Nat) (writeRes : Option Int)
    (hlen : 2 ≤ cfg.length) (hbytes : ∀ b ∈ cfg, b < 256) :
    (goodix_check_cfg cfg = CfgCheck.ok ↔
      (cfg.length ≤ 240 ∧
        (cfg.take (cfg.length - 1)).sum % 256 = 0 ∧
        cfg.getD (cfg.length - 1) 0 = 1)) ∧
    (goodix_check_cfg cfg ≠ CfgCheck.ok →
      goodix_send_cfg cfg writeRes = (-EINVAL, [])) := by
  constructor
  · have hnneg : ¬ ((cfg.length : Int) - 2 < 0) := by omega
    have hnneg1 : ¬ ((cfg.length : Int) - 2 + 1 < 0) := by omega
    have htn : ((cfg.length : Int) - 2).toNat = cfg.length - 2 := by omega
    have htn1 : ((cfg.length : Int) - 2 + 1).toNat = cfg.length - 1 := by omega
    have hlt2 : cfg.length - 2 < cfg.length := by omega
    have hlt1 : cfg.length - 1 < cfg.length := by omega
    have hb2 : cfg[cfg.length - 2]? = some cfg[cfg.length - 2] :=
      List.getElem?_eq_getElem hlt2
    have hb1 : cfg[cfg.length - 1]? = some cfg[cfg.length - 1] :=
      List.getElem?_eq_getElem hlt1
    have hA : byteAt cfg ((cfg.length : Int) - 2) = some cfg[cfg.length - 2] := by
      simp only [byteAt, if_neg hnneg, htn, hb2]
    have hB : byteAt cfg ((cfg.length : Int) - 2 + 1) =
        some cfg[cfg.length - 1] := by
      simp only [byteAt, if_neg hnneg1, htn1, hb1]
    have hblt : cfg[cfg.length - 2] < 256 :=
      hbytes _ (List.getElem_mem hlt2)
    have hTake : (cfg.take (cfg.length - 1)).sum
        = (cfg.take (cfg.length - 2)).sum + cfg[cfg.length - 2] := by
      have h1 : cfg.length - 1 = (cfg.length - 2) + 1 := by omega
      rw [h1]
      exact List.sum_take_succ cfg (cfg.length - 2) hlt2
    have hgetD : cfg.getD (cfg.length - 1) 0 = cfg[cfg.length - 1] := by
      simp [List.getD, hb1]
    by_cases hsz : cfg.length > GOODIX_CONFIG_MAX_LENGTH
    · have h240 : ¬ cfg.length ≤ 240 := by
        simp only [GOODIX_CONFIG_MAX_LENGTH] at hsz
        omega
      simp [goodix_check_cfg, if_pos hsz, h240]
    · have h240 : cfg.length ≤ 240 := by
        simp only [GOODIX_CONFIG_MAX_LENGTH] at hsz
        omega
      have hcs := checksum_mod_iff (cfg.take (cfg.length - 2)).sum
        cfg[cfg.length - 2] hblt
      simp only [goodix_check_cfg, if_neg hsz, htn, hA, hB]
      by_cases hc : (256 - (cfg.take (cfg.length - 2)).sum % 256) % 256 =
          cfg[cfg.length - 2]
      · by_cases hf : cfg[cfg.length - 1] = 1
        · rw [if_neg (not_not_intro hc), if_neg (not_not_intro hf)]
          constructor
          · intro _
            refine ⟨h240, ?_, ?_⟩
            · rw [hTake]
              exact hcs.mp hc
            · rw [hgetD]
              exact hf
          · intro _
            rfl
        · rw [if_neg (not_not_intro hc), if_pos hf]
          constructor
          · intro h
            exact CfgCheck.noConfusion h
          · rintro ⟨-, -, hq⟩
            rw [hgetD] at hq
            exact absurd hq hf
      · rw [if_pos hc]
        constructor
        · intro h
          exact CfgCheck.noConfusion h
        · rintro ⟨-, hp, -⟩
          rw [hTake] at hp
          exact absurd (hcs.mpr hp) hc
  · intro h
    unfold goodix_send_cfg
    rw [if_pos h]

/-- Witness for C3: an accepted 3-byte blob and a rejected one. -/
theorem C3_cfg_validation_witness :
    goodix_check_cfg [0, 0, 1] = CfgCheck.ok ∧
    goodix_send_cfg [1, 0, 1] none = (-EINVAL, []) := by
  constructor
  · exact (C3_cfg_validation [0, 0, 1] none (by decide) (by decide)).1.mpr
      (by decide)
  · exact (C3_cfg_validation [1, 0, 1] none (by decide) (by decide)).2
      (by decide)

/-- C1 counterexample: a well-formed config register content (7 bytes,
all < 256) that goodix_read_config stores without clamping: x-resolution
bytes 0xFF 0xFF give abs_x_max = 65535 > 4096, and contacts byte 0x0F
gives max_touch_num = 15 > 10, so the claimed ranges do not hold for
every config content. -/
theorem C1_geometry_counterexample :
    ¬ (((goodix_read_config false
          (some [0, 255, 255, 1, 0, 15, 0])).max_touch_num ≤ 10) ∧
       ((goodix_read_config false
          (some [0, 255, 255, 1, 0, 15, 0])).abs_x_max ≤ 4096)) := by
  decide

/-- C1 amended: after goodix_read_config, the stored geometry satisfies
abs_x_max and abs_y_max in 1..65535, max_touch_num in 1..15 and the IRQ
trigger-type index in 0..3 (the code masks but does not clamp to the
spec ranges 4096/10), and the read-failure path stores the defaults
4096 x 4096, 10 contacts, trigger type 1. -/
theorem C1_geometry_ranges (swapped : Bool) (readRes : Option (List Nat))
    (hbytes : ∀ cfg, readRes = some cfg → ∀ b ∈ cfg, b < 256) :
    (1 ≤ (goodix_read_config swapped readRes).abs_x_max ∧
      (goodix_read_config swapped readRes).abs_x_max ≤ 65535) ∧
    (1 ≤ (goodix_read_config swapped readRes).abs_y_max ∧
      (goodix_read_config swapped readRes).abs_y_max ≤ 65535) ∧
    (1 ≤ (goodix_read_config swapped readRes).max_touch_num ∧
      (goodix_read_config swapped readRes).max_touch_num ≤ 15) ∧
    (goodix_read_config swapped readRes).int_trigger_type ≤ 3 ∧
    (readRes = none →
      goodix_read_config swapped readRes = goodix_default_geom swapped) := by
  cases readRes with
  | none =>
    refine ⟨?_, ?_, ?_, ?_, fun _ => rfl⟩ <;>
      cases swapped <;>
      simp [goodix_read_config, goodix_default_geom, swapIf,
        GOODIX_MAX_WIDTH, GOODIX_MAX_HEIGHT, GOODIX_MAX_CONTACTS,
        GOODIX_INT_TRIGGER]
  | some cfg =>
    have hb := hbytes cfg rfl
    have h1 : cfg.getD RESOLUTION_LOC 0 < 256 := byte_getD_lt cfg hb _
    have h2 : cfg.getD (RESOLUTION_LOC + 1) 0 < 256 := byte_getD_lt cfg hb _
    have h3 : cfg.getD (RESOLUTION_LOC + 2) 0 < 256 := byte_getD_lt cfg hb _
    have h4 : cfg.getD (RESOLUTION_LOC + 3) 0 < 256 := byte_getD_lt cfg hb _
    have hmain := parse_config_ranges swapped
      (cfg.getD RESOLUTION_LOC 0) (cfg.getD (RESOLUTION_LOC + 1) 0)
      (cfg.getD (RESOLUTION_LOC + 2) 0) (cfg.getD (RESOLUTION_LOC + 3) 0)
      (cfg.getD MAX_CONTACTS_LOC 0) (cfg.getD TRIGGER_LOC 0) h1 h2 h3 h4
    refine ⟨?_, ?_, ?_, ?_, by simp⟩
    · simpa only [goodix_read_config] using hmain.1
    · simpa only [goodix_read_config] using hmain.2.1
    · simpa only [goodix_read_config] using hmain.2.2.1
    · simpa only [goodix_read_config] using hmain.2.2.2

/-- Witness for C1 amended at a concrete config content. -/
theorem C1_geometry_ranges_witness :
    1 ≤ (goodix_read_config false
          (some [0, 255, 255, 1, 0, 15, 0])).abs_x_max ∧
    (goodix_read_config false
          (some [0, 255, 255, 1, 0, 15, 0])).abs_x_max ≤ 65535 :=
  (C1_geometry_ranges false (some [0, 255, 255, 1, 0, 15, 0])
    (by intro cfg h; cases h; decide)).1

/-- C4: for every contact, the coordinates emitted into the sink are
obtained by applying the inversions before the axis swap: with
xi = inverted_x ? abs_x_max - x : x and yi = inverted_y ?
abs_y_max - y : y, the emitted pair is (yi, xi) when swapped_x_y is
set and (xi, yi) otherwise. -/
theorem C4_coordinate_transform (ts : GoodixTs) (coor_data : List Nat) :
    ((goodix_ts_report_touch ts coor_data).pos_x,
      (goodix_ts_report_touch ts coor_data).pos_y) =
      (let x : Int := le16 (coor_data.getD 1 0) (coor_data.getD 2 0)
       let y : Int := le16 (coor_data.getD 3 0) (coor_data.getD 4 0)
       let xi := if ts.inverted_x then ts.abs_x_max - x else x
       let yi := if ts.inverted_y then ts.abs_y_max - y else y
       if ts.swapped_x_y then (yi, xi) else (xi, yi)) := by
  cases h : ts.swapped_x_y <;>
    simp [goodix_ts_report_touch, swapIf, h]

/-- C5: on an interrupt whose report header has the high bit clear or
whose contact count exceeds max_touch_num, the IRQ handler emits
nothing into the sink, still writes 0 to register 0x814E, and returns
IRQ_HANDLED. -/
theorem C5_bad_frame_still_acked (ts : GoodixTs) (env : IrqEnv)
    (ackRes : Option Int) (data : List Nat)
    (h1 : env.read1 = Except.ok data)
    (h : (data.getD 0 0) &&& 0x80 = 0 ∨
      ts.max_touch_num < (data.getD 0 0) &&& 0x0f) :
    goodix_ts_irq_handler ts env ackRes =
      ([], [(GOODIX_READ_COOR_ADDR, [0])], IrqReturn.handled) := by
  have hrep : ∃ e, goodix_ts_read_input_report ts.max_touch_num env =
      Except.error e := by
    rcases h with h | h
    · refine ⟨-EAGAIN, ?_⟩
      simp only [goodix_ts_read_input_report, h1]
      rw [if_pos h]
    · by_cases h0 : (data.getD 0 0) &&& 0x80 = 0
      · refine ⟨-EAGAIN, ?_⟩
        simp only [goodix_ts_read_input_report, h1]
        rw [if_pos h0]
      · refine ⟨-EPROTO, ?_⟩
        simp only [goodix_ts_read_input_report, h1]
        rw [if_neg h0, if_pos h]
  obtain ⟨e, he⟩ := hrep
  cases ackRes <;>
    simp only [goodix_ts_irq_handler, goodix_process_events, he]

/-- Witness for C5 at a frame-not-ready header and at an overlong count. -/
theorem C5_bad_frame_still_acked_witness :
    goodix_ts_irq_handler ⟨4096, 4096, false, false, false, 10⟩
        ⟨Except.ok [0x8b, 0, 0, 0, 0, 0, 0, 0, 0], Except.ok []⟩ none =
      ([], [(GOODIX_READ_COOR_ADDR, [0])], IrqReturn.handled) :=
  C5_bad_frame_still_acked ⟨4096, 4096, false, false, false, 10⟩
    ⟨Except.ok [0x8b, 0, 0, 0, 0, 0, 0, 0, 0], Except.ok []⟩ none
    [0x8b, 0, 0, 0, 0, 0, 0, 0, 0] rfl (Or.inr (by decide))

/-- C2 counterexample: with `int retries = 3` the loop `while (--retries)`
runs its body at most twice, so an environment whose first two status
reads fail triggers ESD recovery after only 2 read attempts, even though
a third attempt would have found the device healthy — refuting the
claimed "up to 3 read attempts" / "recovery only after all 3 attempts
fail". -/
theorem C2_esd_counterexample :
    goodix_esd_work (fun i => if i < 2 then EsdRead.fail else EsdRead.ok 0 0xAA)
      = [EsdAct.waitBarrier, EsdAct.readCmd, EsdAct.readCmd, EsdAct.recover] ∧
    esdHealthy ((fun i => if i < 2 then EsdRead.fail else EsdRead.ok 0 0xAA) 2)
      = true := by
  decide

/-- C2 amended: each ESD tick, after the firmware barrier, performs up
to 2 read attempts of register 0x8040; the device is healthy iff
byte0 != 0xAA and byte1 == 0xAA, in which case 0xAA is written back and
the next tick is scheduled; recovery runs only after both attempts
fail. -/
theorem C2_esd_tick (env : Nat → EsdRead) :
    ((goodix_esd_work env).head? = some EsdAct.waitBarrier) ∧
    ((goodix_esd_work env).count EsdAct.readCmd ≤ 2) ∧
    (∀ b0 b1, esdHealthy (EsdRead.ok b0 b1) = true ↔
      (b0 ≠ GOODIX_CMD_ESD_ENABLED ∧ b1 = GOODIX_CMD_ESD_ENABLED)) ∧
    (esdHealthy (env 0) = true →
      goodix_esd_work env =
        [EsdAct.waitBarrier, EsdAct.readCmd, EsdAct.feedWatchdog,
         EsdAct.scheduleNext]) ∧
    (esdHealthy (env 0) = false → esdHealthy (env 1) = true →
      goodix_esd_work env =
        [EsdAct.waitBarrier, EsdAct.readCmd, EsdAct.readCmd,
         EsdAct.feedWatchdog, EsdAct.scheduleNext]) ∧
    (esdHealthy (env 0) = false → esdHealthy (env 1) = false →
      goodix_esd_work env =
        [EsdAct.waitBarrier, EsdAct.readCmd, EsdAct.readCmd,
         EsdAct.recover]) := by
  refine ⟨?_, ?_, ?_, ?_, ?_, ?_⟩
  · cases h0 : esdHealthy (env 0) <;> cases h1 : esdHealthy (env 1) <;>
      simp [goodix_esd_work, goodix_esd_loop, h0, h1]
  · cases h0 : esdHealthy (env 0) <;> cases h1 : esdHealthy (env 1) <;>
      simp [goodix_esd_work, goodix_esd_loop, h0, h1, List.count_cons,
        List.count_append]
  · intro b0 b1
    simp [esdHealthy]
  · intro h0
    simp [goodix_esd_work, goodix_esd_loop, h0]
  · intro h0 h1
    simp [goodix_esd_work, goodix_esd_loop, h0, h1]
  · intro h0 h1
    simp [goodix_esd_work, goodix_esd_loop, h0, h1]

/-- Witness for C2 amended: a healthy first read feeds the watchdog and
reschedules. -/
theorem C2_esd_tick_witness :
    goodix_esd_work (fun _ => EsdRead.ok 0 0xAA) =
      [EsdAct.waitBarrier, EsdAct.readCmd, EsdAct.feedWatchdog,
       EsdAct.scheduleNext] :=
  (C2_esd_tick (fun _ => EsdRead.ok 0 0xAA)).2.2.2.1 (by decide)

/-- C6: the reset/address handshake drives INT to 1 exactly when the
desired slave address is 0x14 (else 0) between pulling reset low and
releasing it, then ends with the INT sync (INT low, 50 ms, then input);
the first sub-step error aborts the handshake (the performed actions
are a prefix of the full sequence) and is returned. -/
theorem C6_reset_handshake (addr : Nat) (env : ResetEnv) :
    ((goodix_reset addr env).2 = resetFirstErr env) ∧
    ((goodix_reset addr env).2 = none →
      (goodix_reset addr env).1 = goodix_reset_success_trace addr) ∧
    (∀ e, (goodix_reset addr env).2 = some e →
      ∃ rest, goodix_reset_success_trace addr =
        (goodix_reset addr env).1 ++ rest) := by
  obtain ⟨r0, r1, r2, r3, r4⟩ := env
  cases r0 with
  | some e =>
    refine ⟨rfl, by simp [goodix_reset], ?_⟩
    intro e h
    exact ⟨[GpioAct.msleepAct 20,
      GpioAct.setIntOutput (if addr = 0x14 then 1 else 0),
      GpioAct.usleepAct 100 2000, GpioAct.setReset 1,
      GpioAct.usleepAct 6000 10000, GpioAct.setIntOutput 0,
      GpioAct.msleepAct 50, GpioAct.setIntInput],
      by simp [goodix_reset, goodix_reset_success_trace]⟩
  | none =>
    cases r1 with
    | some e =>
      refine ⟨rfl, by simp [goodix_reset], ?_⟩
      intro e h
      exact ⟨[GpioAct.usleepAct 100 2000, GpioAct.setReset 1,
        GpioAct.usleepAct 6000 10000, GpioAct.setIntOutput 0,
        GpioAct.msleepAct 50, GpioAct.setIntInput],
        by simp [goodix_reset, goodix_reset_success_trace]⟩
    | none =>
      cases r2 with
      | some e =>
        refine ⟨rfl, by simp [goodix_reset], ?_⟩
        intro e h
        exact ⟨[GpioAct.usleepAct 6000 10000, GpioAct.setIntOutput 0,
          GpioAct.msleepAct 50, GpioAct.setIntInput],
          by simp [goodix_reset, goodix_reset_success_trace]⟩
      | none =>
        cases r3 with
        | some e =>
          refine ⟨rfl, by simp [goodix_reset, goodix_int_sync], ?_⟩
          intro e h
          exact ⟨[GpioAct.msleepAct 50, GpioAct.setIntInput],
            by simp [goodix_reset, goodix_int_sync,
              goodix_reset_success_trace]⟩
        | none =>
          cases r4 with
          | some e =>
            refine ⟨rfl, by simp [goodix_reset, goodix_int_sync], ?_⟩
            intro e h
            exact ⟨[], by simp [goodix_reset, goodix_int_sync,
              goodix_reset_success_trace]⟩
          | none =>
            refine ⟨rfl, ?_, ?_⟩
            · intro _
              simp [goodix_reset, goodix_int_sync,
                goodix_reset_success_trace]
            · intro e h
              simp [goodix_reset, goodix_int_sync] at h

/-- Witness for C6: the all-success handshake at address 0x14 performs
the full trace, with INT driven high while reset is low. -/
theorem C6_reset_handshake_witness :
    (goodix_reset 0x14 ⟨none, none, none, none, none⟩).1 =
      goodix_reset_success_trace 0x14 :=
  (C6_reset_handshake 0x14 ⟨none, none, none, none, none⟩).2.1 (by decide)

/-- C7 counterexample: when the screen-off command write fails with the
bus error code -5, goodix_sleep returns -EAGAIN, not the underlying
failure code — refuting "the returned error is the underlying failure
surfaced to the caller" as stated. -/
theorem C7_sleep_counterexample :
    (goodix_sleep ⟨true, true, false⟩ ⟨none, some (-5)⟩).2.1 = -EAGAIN ∧
    (goodix_sleep ⟨true, true, false⟩ ⟨none, some (-5)⟩).2.1 ≠ -5 := by
  decide

/-- C7 amended: when goodix_sleep fails after freeing the IRQ it
re-requests the IRQ before returning and restores INT to input where
needed (only on the screen-off path, where INT had been driven low),
and suspended remains false; the INT-drive failure is returned as is,
while a screen-off write failure is reported as -EAGAIN rather than the
underlying error; on success suspended becomes true. -/
theorem C7_sleep_error_paths (st : SleepSt) (env : SleepEnv)
    (hgi : st.hasGpioInt = true) (hgr : st.hasGpioRst = true)
    (hs : st.suspended = false) :
    (∀ e, env.int_out_low = some e →
      (goodix_sleep st env).2.1 = e ∧
      (goodix_sleep st env).2.2 = false ∧
      PmAct.requestIrq ∈ (goodix_sleep st env).1 ∧
      PmAct.setIntInput ∉ (goodix_sleep st env).1) ∧
    (env.int_out_low = none → ∀ e, env.screen_off = some e →
      (goodix_sleep st env).2.1 = -EAGAIN ∧
      (goodix_sleep st env).2.2 = false ∧
      PmAct.setIntInput ∈ (goodix_sleep st env).1 ∧
      PmAct.requestIrq ∈ (goodix_sleep st env).1) ∧
    (env.int_out_low = none → env.screen_off = none →
      (goodix_sleep st env).2.1 = 0 ∧ (goodix_sleep st env).2.2 = true) := by
  obtain ⟨gi, gr, sus⟩ := st
  obtain ⟨iol, soff⟩ := env
  cases hgi
  cases hgr
  cases hs
  refine ⟨?_, ?_, ?_⟩
  · intro e he
    cases he
    simp [goodix_sleep]
  · intro hio e he
    cases hio
    cases he
    simp [goodix_sleep]
  · intro hio hso
    cases hio
    cases hso
    simp [goodix_sleep]

/-- Witness for C7 amended at the screen-off failure. -/
theorem C7_sleep_error_paths_witness :
    (goodix_sleep ⟨true, true, false⟩ ⟨none, some (-5)⟩).2.1 = -EAGAIN ∧
    (goodix_sleep ⟨true, true, false⟩ ⟨none, some (-5)⟩).2.2 = false ∧
    PmAct.setIntInput ∈ (goodix_sleep ⟨true, true, false⟩
      ⟨none, some (-5)⟩).1 ∧
    PmAct.requestIrq ∈ (goodix_sleep ⟨true, true, false⟩
      ⟨none, some (-5)⟩).1 :=
  (C7_sleep_error_paths ⟨true, true, false⟩ ⟨none, some (-5)⟩
    rfl rfl rfl).2.1 rfl (-5) rfl

/-- C10: goodix_open increments open_count only after a successful
power-on: a failing power-on returns its error with open_count
unchanged; and when either GPIO handle is absent, open returns success
immediately and close returns immediately, neither touching
open_count. -/
theorem C10_open_close_count (st : OpenSt) (powerOn : Option Int) :
    (∀ e, powerOn = some e → st.hasGpioInt = true → st.hasGpioRst = true →
      goodix_open st powerOn = (e, st.open_count)) ∧
    (st.hasGpioInt = false ∨ st.hasGpioRst = false →
      goodix_open st powerOn = (0, st.open_count) ∧
      goodix_close st = st.open_count) ∧
    (powerOn = none → st.hasGpioInt = true → st.hasGpioRst = true →
      goodix_open st powerOn = (0, st.open_count + 1)) := by
  obtain ⟨gi, gr, oc⟩ := st
  refine ⟨?_, ?_, ?_⟩
  · intro e he h1 h2
    cases h1
    cases h2
    cases he
    simp [goodix_open]
  · intro h
    rcases h with h | h <;> cases h <;> simp [goodix_open, goodix_close]
  · intro he h1 h2
    cases h1
    cases h2
    cases he
    simp [goodix_open]

/-- Witness for C10: failing power-on leaves the count, success bumps
it, absent GPIO leaves it. -/
theorem C10_open_close_count_witness :
    goodix_open ⟨true, true, 2⟩ (some (-13)) = (-13, 2) ∧
    goodix_open ⟨true, true, 2⟩ none = (0, 3) ∧
    goodix_open ⟨false, true, 2⟩ none = (0, 2) :=
  ⟨(C10_open_close_count ⟨true, true, 2⟩ (some (-13))).1 (-13) rfl rfl rfl,
   (C10_open_close_count ⟨true, true, 2⟩ none).2.2 rfl rfl rfl,
   ((C10_open_close_count ⟨false, true, 2⟩ none).2.1 (Or.inl rfl)).1⟩

end Goodix
